import Mathlib

/-!
# Verification of the TechSteps matching / discovery pipeline

Shallow embedding of the core algorithmic modules of the repository:

* `src/src/services/GuideMatchingService.ts` (the file `GuideMatchingService`,
  provided unnamed): `normalize`, `calculateWordOverlap`, `keywordScore`,
  `findBestMatch`, `isDuplicate`.
* `src/scripts/discovery-agent.ts` and `src/public/sw.js` (the updated copy of
  the discovery agent): `isSafeContent`, `normalizeText`, `isDuplicate`,
  `generateGuideFromContent`, `scrapePageContent`, and the main `cycle` loop.

Modelling conventions:

* JavaScript strings are modelled as `String`, processed characterwise via
  `List Char`.  All concrete data in the claims is ASCII, and the embedding
  models `toLowerCase`, `\w`, `\s` on their ASCII meaning (`Char.toLower`,
  ASCII letters/digits, the common ASCII whitespace characters).
* JavaScript numbers are modelled as `ℚ`; every numeric comparison settled
  below is far from any rounding boundary of binary64 arithmetic
  (1/3 vs 0.4, 1/2 vs 0.7, …), so verdicts agree with the float semantics.
* `Array.prototype.some` / `filter` / `forEach`-with-counter become
  `List.any` / `List.filter` / counting; `new Set(xs)` becomes `xs.dedup`
  (the JS `Set` keeps first occurrences, `dedup` keeps last ones; only
  membership and cardinality of the underlying set are ever consumed, and
  these agree).
* The effectful pipeline (`cycle`) is modelled as a fold over the list of
  search candidates, threading the accumulated accepted drafts and a trace
  of the candidates on which the LLM generator was invoked.
-/

/-- ASCII lowercasing of a string, modelling `String.prototype.toLowerCase`
on the ASCII inputs of this development. -/
def toLowerStr (s : String) : String := String.mk (s.toList.map Char.toLower)

/-- A `\w` character of the JS regexes: ASCII letter, digit or underscore. -/
def isWordChar (c : Char) : Bool := c.isAlpha || c.isDigit || c == '_'

/-- A `\s` character (modelled on the ASCII whitespace characters). -/
def isSpaceChar (c : Char) : Bool := c == ' ' || c == '\t' || c == '\n' || c == '\r'

/-- `replace(/\s+/g, ' ')`: collapse each maximal run of whitespace characters
into a single space.  The Boolean flag records whether the previous character
belonged to a whitespace run. -/
def collapseWsAux : Bool → List Char → List Char
  | _, [] => []
  | inRun, c :: t =>
    if isSpaceChar c then
      if inRun then collapseWsAux true t else ' ' :: collapseWsAux true t
    else c :: collapseWsAux false t

/-- `String.prototype.trim` on a character list: drop leading and trailing
whitespace. -/
def trimChars (cs : List Char) : List Char :=
  ((cs.dropWhile isSpaceChar).reverse.dropWhile isSpaceChar).reverse

/-- `String.prototype.split(' ')` on a character list.  Splitting the empty
string yields `[""]`, exactly as in JS. -/
def splitOnSpace : List Char → List (List Char)
  | [] => [[]]
  | c :: rest =>
    match splitOnSpace rest with
    | [] => [[]]
    | t :: ts => if c == ' ' then [] :: t :: ts else (c :: t) :: ts

/-- Does `needle` occur at the start of `hay`? -/
def startsWith : List Char → List Char → Bool
  | [], _ => true
  | _ :: _, [] => false
  | a :: as, b :: bs => a == b && startsWith as bs

/-- `String.prototype.includes`: does `needle` occur contiguously inside
`hay`?  The empty needle is contained in every string. -/
def containsSub : List Char → List Char → Bool
  | [], needle => startsWith needle []
  | c :: t, needle => startsWith needle (c :: t) || containsSub t needle

/-- `hay.includes(needle)` on strings. -/
def strIncludes (hay needle : String) : Bool := containsSub hay.toList needle.toList

example : strIncludes "wifi not connecting" "wifi" = true := by decide
example : strIncludes "wifi not connecting" "connection" = false := by decide
example : strIncludes "anything" "" = true := by decide

namespace GuideMatchingService

/-- A persisted troubleshooting guide, as consumed by the matcher
(`src/data/guides.json` entries; only the fields the matcher reads). -/
structure Guide where
  id : String
  title : String
  problemDescription : String
  keywords : List String
  category : String
deriving DecidableEq

/-- An ephemeral match result. -/
structure MatchResult where
  guide : Guide
  score : ℚ
  matchReason : String
deriving DecidableEq

/-- `normalize(text)`: lowercase, `replace(/[^\w\s]/g, '')`,
`replace(/\s+/g, ' ')`, `trim()`. -/
def normalize (text : String) : String :=
  String.mk (trimChars (collapseWsAux false
    ((toLowerStr text).toList.filter (fun c => isWordChar c || isSpaceChar c))))

/-- The set of words of a string after normalization:
`new Set(this.normalize(s).split(' '))`. -/
def tokenSet (s : String) : List String :=
  ((splitOnSpace (normalize s).toList).map String.mk).dedup

/-- The match counter of `calculateWordOverlap`: the number of (distinct)
query words of length `> 2` that occur among the (distinct) text words. -/
def overlapMatchCount (query text : String) : Nat :=
  ((tokenSet query).filter
    (fun w => 2 < w.length && (tokenSet text).contains w)).length

/-- `calculateWordOverlap(query, text)`:
`queryWords.size > 0 ? matches / queryWords.size : 0`. -/
def calculateWordOverlap (query text : String) : ℚ :=
  if 0 < (tokenSet query).length then
    (overlapMatchCount query text : ℚ) / ((tokenSet query).length : ℚ)
  else 0

/-- The match counter of `keywordScore`: keywords (with multiplicity) whose
normalized form is contained as a substring in the normalized query. -/
def keywordMatchCount (query : String) (keywords : List String) : Nat :=
  (keywords.filter (fun k => strIncludes (normalize query) (normalize k))).length

/-- `keywordScore(query, keywords)`:
`keywords.length > 0 ? matches / keywords.length : 0`. -/
def keywordScore (query : String) (keywords : List String) : ℚ :=
  if 0 < keywords.length then
    (keywordMatchCount query keywords : ℚ) / (keywords.length : ℚ)
  else 0

/-- `titleScore` of `findBestMatch`. -/
def titleScore (query : String) (g : Guide) : ℚ :=
  calculateWordOverlap query g.title * 0.4

/-- `descriptionScore` of `findBestMatch`. -/
def descriptionScore (query : String) (g : Guide) : ℚ :=
  calculateWordOverlap query g.problemDescription * 0.3

/-- `keywordScoreValue` of `findBestMatch`. -/
def keywordScoreValue (query : String) (g : Guide) : ℚ :=
  keywordScore query g.keywords * 0.3

/-- `totalScore = titleScore + descriptionScore + keywordScoreValue`. -/
def totalScore (query : String) (g : Guide) : ℚ :=
  titleScore query g + descriptionScore query g + keywordScoreValue query g

/-- `s.slice(0, -2)`: drop the last two characters. -/
def sliceDropLast2 (s : String) : String :=
  String.mk (s.toList.take (s.toList.length - 2))

/-- The `matchReason` string assembled by `findBestMatch`
(`matchReason.slice(0, -2) || 'general match'`). -/
def matchReasonFor (query : String) (g : Guide) : String :=
  let r := (if titleScore query g > 0.2 then "title match, " else "")
        ++ (if descriptionScore query g > 0.15 then "description match, " else "")
        ++ (if keywordScoreValue query g > 0.15 then "keyword match, " else "")
  if sliceDropLast2 r = "" then "general match" else sliceDropLast2 r

/-- The `MatchResult` pushed by `findBestMatch` for a qualifying guide. -/
def mkMatchResult (query : String) (g : Guide) : MatchResult :=
  ⟨g, totalScore query g, matchReasonFor query g⟩

/-- One insertion step of a stable descending sort on `score`; an earlier
element stays in front of later elements of equal score. -/
def insertByScoreDesc (r : MatchResult) : List MatchResult → List MatchResult
  | [] => [r]
  | b :: bs => if b.score > r.score then b :: insertByScoreDesc r bs else r :: b :: bs

/-- `results.sort((a, b) => b.score - a.score)`: a stable descending sort
by score (insertion sort is stable, matching the ECMAScript guarantee). -/
def sortByScoreDesc : List MatchResult → List MatchResult
  | [] => []
  | r :: rs => insertByScoreDesc r (sortByScoreDesc rs)

/-- `findBestMatch(query, minScore = 0.4)`: collect the guides with
`totalScore >= minScore` in corpus order, sort descending by score, return
the first or `null`. -/
def findBestMatch (guides : List Guide) (query : String) (minScore : ℚ := 0.4) :
    Option MatchResult :=
  (sortByScoreDesc (guides.filterMap (fun g =>
    if totalScore query g ≥ minScore then some (mkMatchResult query g) else none))).head?

/-- The `commonKeywords` count of `isDuplicate`: candidate keywords whose
normalized form equals the normalized form of some keyword of `g`. -/
def commonKeywordCount (keywords : List String) (g : Guide) : Nat :=
  (keywords.filter (fun k =>
    g.keywords.any (fun gk => normalize gk == normalize k))).length

/-- `isDuplicate(title, keywords)` of `GuideMatchingService`: some existing
guide has title overlap `> 0.7` or at least `3` common keywords. -/
def isDuplicate (guides : List Guide) (title : String) (keywords : List String) :
    Bool :=
  guides.any (fun g =>
    if calculateWordOverlap title g.title > 0.7 then true
    else decide (3 ≤ commonKeywordCount keywords g))

example : normalize "Fix Wi-Fi No Internet" = "fix wifi no internet" := by decide
example : tokenSet "wifi not connecting" = ["wifi", "not", "connecting"] := by decide
example : overlapMatchCount "wifi not connecting" "Fix Wi-Fi No Internet" = 1 := by decide
example : (tokenSet "wifi not connecting").length = 3 := by decide
example : keywordMatchCount "wifi not connecting" ["wifi", "internet", "connection"] = 1 := by
  decide

end GuideMatchingService

namespace Agent

/-- A step of a generated guide. -/
structure Step where
  title : String
  content : String
deriving DecidableEq

/-- An alternate solution of a generated guide. -/
structure Alternate where
  title : String
  type : String
  steps : List Step
deriving DecidableEq

/-- The `meta` block stamped by `generateGuideFromContent`. -/
structure GuideMeta where
  created : String
  updated : String
  sourceUrl : String
  confidenceScore : ℚ
  priorityScore : ℚ
  difficulty : String
deriving DecidableEq

/-- `DraftGuide` of the discovery agent. -/
structure DraftGuide where
  id : String
  title : String
  problemDescription : String
  keywords : List String
  category : String
  steps : List Step
  alternates : List Alternate
  meta : GuideMeta
deriving DecidableEq

/-- A search candidate: `{ title, body, url }` as produced by the Tavily
search or the DuckDuckGo-plus-scrape fallback. -/
structure Item where
  title : String
  body : String
  url : String
deriving DecidableEq

/-- The `BLOCKLIST` of the discovery agent (identical in
`discovery-agent.ts` and `sw.js`). -/
def BLOCKLIST : List String :=
  ["porn", "xxx", "sex", "nude", "nsfw", "drug", "gamble", "casino", "dating",
   "hack", "crack", "pirat", "torrent", "warez", "bypass", "activator", "kms",
   "onlyfans", "leak"]

/-- `isSafeContent(text)`: lowercase the text and reject it when any
blocklisted keyword occurs as a substring. -/
def isSafeContent (text : String) : Bool :=
  !(BLOCKLIST.any (fun keyword => strIncludes (toLowerStr text) keyword))

/-- The JSON object parsed out of a successful generation response
(the fields the stamping code reads; `difficulty` may be absent or empty,
both falsy for `content.difficulty || 'Medium'`). -/
structure GenContent where
  title : String
  problemDescription : String
  category : String
  difficulty : Option String
  keywords : List String
  steps : List Step
  alternates : List Alternate
deriving DecidableEq

/-- The outcome of the generation HTTP call, as observed by
`generateGuideFromContent`: the `fetch` itself may throw, `response.ok` may
be false (the code then throws and catches), the body may fail to parse, or
a content object is obtained. -/
inductive GenResponse where
  | fetchError
  | httpNotOk
  | parseFailure
  | ok (content : GenContent)
deriving DecidableEq

/-- `generateGuideFromContent(title, body, url, feedbackContext)` (identical
in `discovery-agent.ts` and `sw.js`), abstracted over the ambient API key,
the freshly generated `id` token, the current timestamp, and the network
outcome.  Every failure path is caught and turned into `null`; a success is
stamped with the fixed meta scores. -/
def generateGuideFromContent (apiKey : Option String) (freshId now url : String)
    (resp : GenResponse) : Option DraftGuide :=
  match apiKey with
  | none => none
  | some _ =>
    match resp with
    | .fetchError => none
    | .httpNotOk => none
    | .parseFailure => none
    | .ok content =>
      some { id := freshId
             title := content.title
             problemDescription := content.problemDescription
             keywords := content.keywords
             category := content.category
             steps := content.steps
             alternates := content.alternates
             meta := { created := now
                       updated := now
                       sourceUrl := url
                       confidenceScore := 0.85
                       priorityScore := 0.8
                       difficulty :=
                         match content.difficulty with
                         | some d => if d = "" then "Medium" else d
                         | none => "Medium" } }

/-- The outcome of navigating to a URL in `scrapePageContent`: either the
navigation throws (error/timeout), or a document with a title and a visible
body text is obtained (boilerplate elements already removed). -/
inductive NavResult where
  | navError
  | page (title : String) (fullText : String)
deriving DecidableEq

/-- `scrapePageContent(url)` (identical in both agent files), abstracted
over the navigation outcome: the body is truncated to 3000 characters
(`innerText.substring(0, 3000)`) and the result is `null` unless
`data.body.length > 200`; any thrown error is caught and yields `null`. -/
def scrapePageContent (nav : NavResult) : Option (String × String) :=
  match nav with
  | .navError => none
  | .page title fullText =>
    let body := String.mk (fullText.toList.take 3000)
    if 200 < body.length then some (title, body) else none

end Agent

namespace SW

open Agent

/-- `normalizeText(text)` of `sw.js`: lowercase, `replace(/[^a-z0-9\s]/g, '')`,
`replace(/\s+/g, ' ')`, `trim()`. -/
def normalizeText (text : String) : String :=
  String.mk (trimChars (collapseWsAux false
    ((toLowerStr text).toList.filter
      (fun c => (('a' ≤ c && c ≤ 'z') || c.isDigit) || isSpaceChar c))))

/-- `normalizedTitle.split(' ')` as a list of words (no deduplication:
`sw.js` works on the raw array, not a `Set`). -/
def titleWords (title : String) : List String :=
  (splitOnSpace (normalizeText title).toList).map String.mk

/-- `matchingWords.length` of `sw.js`'s `isDuplicate`: new-title words of
length `> 3` occurring as substrings of the normalized existing title. -/
def matchingWordCount (newTitle existingTitle : String) : Nat :=
  ((titleWords newTitle).filter
    (fun w => 3 < w.length && strIncludes (normalizeText existingTitle) w)).length

/-- `titleSimilarity = matchingWords.length / titleWords.length`. -/
def titleSimilarity (newTitle existingTitle : String) : ℚ :=
  (matchingWordCount newTitle existingTitle : ℚ) / ((titleWords newTitle).length : ℚ)

/-- `commonKeywords.length` of `sw.js`'s `isDuplicate`. -/
def commonKeywordCount (newKeywords existingKeywords : List String) : Nat :=
  (newKeywords.filter (fun k =>
    existingKeywords.any (fun ek => normalizeText ek == normalizeText k))).length

/-- `isDuplicate(newGuide, existingGuides)` of `sw.js`: for some existing
guide, the title similarity exceeds `0.7` or at least `3` keywords are
shared. -/
def isDuplicate (newGuide : DraftGuide) (existingGuides : List DraftGuide) : Bool :=
  existingGuides.any (fun existing =>
    if titleSimilarity newGuide.title existing.title > 0.7 then true
    else decide (3 ≤ commonKeywordCount newGuide.keywords existing.keywords))

/-- One iteration of the generation loop of `sw.js`'s `cycle` (the
`for (const item of sourceData)` body).  The state is the pair of the drafts
accepted so far this cycle (`allNewGuides`) and the trace of the candidates
on which `generateGuideFromContent` was invoked.  An unsafe candidate is
skipped before generation; a generated guide is kept only when
`isDuplicate(guide, [...existingGuides, ...allNewGuides])` is false. -/
def cycleStep (gen : Item → Option DraftGuide) (existingGuides : List DraftGuide)
    (acc : List DraftGuide × List Item) (item : Item) :
    List DraftGuide × List Item :=
  if isSafeContent item.title && isSafeContent item.body then
    match gen item with
    | none => (acc.1, acc.2 ++ [item])
    | some guide =>
      if isDuplicate guide (existingGuides ++ acc.1) then (acc.1, acc.2 ++ [item])
      else (acc.1 ++ [guide], acc.2 ++ [item])
  else acc

/-- The accepted-draft accumulation of `sw.js`'s `cycle`: `existingGuides`
is the pending store followed by the persisted corpus, `queries` is the
`sourceData` list obtained for each of the `NUM_QUERIES` queries, and the
result is the final `allNewGuides` together with the trace of generator
invocations.  Search, random topic selection and the rate-limit delay are
external effects that only determine `queries`. -/
def cycle (gen : Item → Option DraftGuide) (existingGuides : List DraftGuide)
    (queries : List (List Item)) : List DraftGuide × List Item :=
  queries.foldl (fun acc sourceData =>
    sourceData.foldl (cycleStep gen existingGuides) acc) ([], [])

end SW

namespace DA

open Agent

/-- One iteration of the `// 4. GENERATE` loop of `discovery-agent.ts`'s
`cycle`: the safety filter is applied to the candidate, the generator is
invoked on the survivors, and every generated guide is accepted — this
variant performs no duplicate check. -/
def cycleStep (gen : Item → Option DraftGuide)
    (acc : List DraftGuide × List Item) (item : Item) :
    List DraftGuide × List Item :=
  if isSafeContent item.title && isSafeContent item.body then
    match gen item with
    | none => (acc.1, acc.2 ++ [item])
    | some guide => (acc.1 ++ [guide], acc.2 ++ [item])
  else acc

/-- The `newGuides` accumulation of `discovery-agent.ts`'s `cycle` over its
single `sourceData` list, with the trace of generator invocations. -/
def cycle (gen : Item → Option DraftGuide) (sourceData : List Item) :
    List DraftGuide × List Item :=
  sourceData.foldl (cycleStep gen) ([], [])

end DA

example : SW.normalizeText "Wi-Fi_Test!" = "wifitest" := by decide
example : SW.titleWords "Fix Wifi Connection Issues" = ["fix", "wifi", "connection", "issues"] := by
  decide
example : SW.matchingWordCount "Fix Wifi Connection Issues" "Fixing Wifi Connection Problems" = 2 := by
  decide
example : Agent.isSafeContent "How to HACK a router" = false := by decide
example : Agent.isSafeContent "printer wont print" = true := by decide

namespace GuideMatchingService

/-- Evaluation helper: `calculateWordOverlap` as a ratio once its two
counters are known. -/
theorem calculateWordOverlap_eval {q t : String} {m n : Nat}
    (hm : overlapMatchCount q t = m) (hn : (tokenSet q).length = n)
    (hp : 0 < n) : calculateWordOverlap q t = (m : ℚ) / (n : ℚ) := by
  unfold calculateWordOverlap
  rw [hm, hn, if_pos hp]

/-- Evaluation helper: `keywordScore` as a ratio once its counter is known. -/
theorem keywordScore_eval {q : String} {ks : List String} {m n : Nat}
    (hm : keywordMatchCount q ks = m) (hn : ks.length = n)
    (hp : 0 < n) : keywordScore q ks = (m : ℚ) / (n : ℚ) := by
  unfold keywordScore
  rw [hm, hn, if_pos hp]

/-- The one-guide corpus of the end-to-end matching scenario. -/
def wifiGuide : Guide :=
  { id := "guide-1"
    title := "Fix Wi-Fi No Internet"
    problemDescription := "Steps to restore internet over Wi-Fi"
    keywords := ["wifi", "internet", "connection"]
    category := "wifi" }

/-- The total score of the scenario query against `wifiGuide` is exactly
`1/3`: each of the three sub-scores contributes a `1/3` fraction. -/
theorem totalScore_wifi_scenario :
    totalScore "wifi not connecting" wifiGuide = 1 / 3 := by
  have h1 : calculateWordOverlap "wifi not connecting" "Fix Wi-Fi No Internet"
      = (1 : ℚ) / 3 := by
    rw [calculateWordOverlap_eval (m := 1) (n := 3) (by decide) (by decide) (by decide)]
    norm_num
  have h2 : calculateWordOverlap "wifi not connecting"
      "Steps to restore internet over Wi-Fi" = (1 : ℚ) / 3 := by
    rw [calculateWordOverlap_eval (m := 1) (n := 3) (by decide) (by decide) (by decide)]
    norm_num
  have h3 : keywordScore "wifi not connecting" ["wifi", "internet", "connection"]
      = (1 : ℚ) / 3 := by
    rw [keywordScore_eval (m := 1) (n := 3) (by decide) (by decide) (by decide)]
    norm_num
  unfold totalScore titleScore descriptionScore keywordScoreValue
  rw [show wifiGuide.title = "Fix Wi-Fi No Internet" from rfl,
      show wifiGuide.problemDescription = "Steps to restore internet over Wi-Fi" from rfl,
      show wifiGuide.keywords = ["wifi", "internet", "connection"] from rfl,
      h1, h2, h3]
  norm_num

end GuideMatchingService

open GuideMatchingService in
/-- C1 counterexample: with the scenario corpus and the default
`minScore = 0.4`, `findBestMatch("wifi not connecting")` returns `null`,
not a non-null result of score at least `0.4`. -/
theorem C1_counterexample :
    findBestMatch [wifiGuide] "wifi not connecting" = none := by
  have htot := totalScore_wifi_scenario
  unfold findBestMatch
  rw [List.filterMap_cons, List.filterMap_nil]
  rw [if_neg (by rw [htot]; norm_num)]
  rfl

open GuideMatchingService in
/-- C1 (amended): the scenario query scores exactly `1/3` against the
scenario guide, which is below the default threshold `0.4`, so
`findBestMatch` returns `null`. -/
theorem C1_amended_null_below_threshold :
    totalScore "wifi not connecting" wifiGuide = 1 / 3
    ∧ ¬ ((1 : ℚ) / 3 ≥ 0.4)
    ∧ findBestMatch [wifiGuide] "wifi not connecting" = none := by
  refine ⟨totalScore_wifi_scenario, by norm_num, ?_⟩
  have htot := totalScore_wifi_scenario
  unfold findBestMatch
  rw [List.filterMap_cons, List.filterMap_nil]
  rw [if_neg (by rw [htot]; norm_num)]
  rfl

namespace GuideMatchingService

/-- The formula the spec states for `wordOverlap` (refinement comparison
only — this follows the spec's words, not the source): both the matches and
the denominator are taken over `Q` = the normalized query tokens of length
`> 2`. -/
def specWordOverlap (query text : String) : ℚ :=
  if ((tokenSet query).filter (fun w => 2 < w.length)).length = 0 then 0
  else ((((tokenSet query).filter (fun w => 2 < w.length)).filter
          (fun w => (tokenSet text).contains w)).length : ℚ)
       / (((tokenSet query).filter (fun w => 2 < w.length)).length : ℚ)

end GuideMatchingService

open GuideMatchingService in
/-- C2 counterexample: on query `"is wifi"` and text `"wifi"` the code
divides by all `2` query tokens and returns `1/2`, while the spec's formula
divides by the single length-`> 2` token and returns `1`. -/
theorem C2_counterexample :
    calculateWordOverlap "is wifi" "wifi" = 1 / 2
    ∧ specWordOverlap "is wifi" "wifi" = 1
    ∧ ¬ (calculateWordOverlap "is wifi" "wifi" = specWordOverlap "is wifi" "wifi") := by
  have h1 : calculateWordOverlap "is wifi" "wifi" = 1 / 2 := by
    rw [calculateWordOverlap_eval (m := 1) (n := 2) (by decide) (by decide) (by decide)]
    norm_num
  have h2 : specWordOverlap "is wifi" "wifi" = 1 := by
    unfold specWordOverlap
    rw [show (tokenSet "is wifi").filter (fun w => 2 < w.length) = ["wifi"] from by decide]
    rw [show ["wifi"].filter (fun w => (tokenSet "wifi").contains w) = ["wifi"] from by decide]
    norm_num
  refine ⟨h1, h2, ?_⟩
  rw [h1, h2]
  norm_num

open GuideMatchingService in
/-- C2 (amended): `wordOverlap` equals the number of distinct normalized
query tokens of length `> 2` occurring among the text tokens, divided by
the number of **all** distinct normalized query tokens (and `0` when that
set is empty). -/
theorem C2_amended_denominator_counts_all_tokens (q t : String) :
    calculateWordOverlap q t =
      if (tokenSet q).toFinset = ∅ then 0
      else (((tokenSet q).toFinset.filter
              (fun w => 2 < w.length ∧ w ∈ (tokenSet t).toFinset)).card : ℚ)
           / ((tokenSet q).toFinset.card : ℚ) := by
  have hnd : (tokenSet q).Nodup := List.nodup_dedup _
  by_cases h : tokenSet q = []
  · unfold calculateWordOverlap
    rw [if_pos ((List.toFinset_eq_empty_iff _).mpr h), if_neg (by rw [h]; simp)]
  · have hne : ¬ (tokenSet q).toFinset = ∅ := by
      rw [List.toFinset_eq_empty_iff]; exact h
    have hpos : 0 < (tokenSet q).length := List.length_pos.mpr h
    have hnum : ((tokenSet q).toFinset.filter
        (fun w => 2 < w.length ∧ w ∈ (tokenSet t).toFinset)).card
        = overlapMatchCount q t := by
      unfold overlapMatchCount
      rw [← List.toFinset_card_of_nodup (hnd.filter _), List.toFinset_filter]
      apply congrArg Finset.card
      apply Finset.filter_congr
      intro w _
      simp [List.mem_toFinset, List.contains, List.elem_iff]
    unfold calculateWordOverlap
    rw [if_pos hpos, if_neg hne, hnum, List.toFinset_card_of_nodup hnd]

namespace GuideMatchingService

/-- The existing guide of the keyword-overlap deduplication example: its
title shares nothing with the candidate, its keywords share three. -/
def batteryGuide : Guide :=
  { id := "guide-2"
    title := "Something Else Entirely"
    problemDescription := "Power management"
    keywords := ["battery", "iphone", "power", "drain"]
    category := "ios" }

end GuideMatchingService

open GuideMatchingService in
/-- C3: `isDuplicate` holds iff some existing guide has title word-overlap
above `0.7` or at least three keywords whose normalized forms match
candidate keywords; in particular `"iPhone Battery Drain"` with keywords
`["battery","iphone","drain"]` is a duplicate of a guide carrying
`["battery","iphone","power","drain"]` despite a dissimilar title. -/
theorem C3_isDuplicate_iff :
    (∀ (guides : List Guide) (title : String) (keywords : List String),
      isDuplicate guides title keywords = true ↔
        ∃ g ∈ guides, calculateWordOverlap title g.title > 0.7
          ∨ 3 ≤ commonKeywordCount keywords g)
    ∧ isDuplicate [batteryGuide] "iPhone Battery Drain"
        ["battery", "iphone", "drain"] = true := by
  constructor
  · intro guides title keywords
    have hbody : ∀ g : Guide,
        ((if calculateWordOverlap title g.title > 0.7 then true
          else decide (3 ≤ commonKeywordCount keywords g)) = true) ↔
        (calculateWordOverlap title g.title > 0.7
          ∨ 3 ≤ commonKeywordCount keywords g) := by
      intro g
      split_ifs with h
      · simp [h]
      · simp [h]
    simp only [isDuplicate, List.any_eq_true, hbody]
  · have hov : calculateWordOverlap "iPhone Battery Drain" "Something Else Entirely"
        = 0 := by
      rw [calculateWordOverlap_eval (m := 0) (n := 3) (by decide) (by decide) (by decide)]
      norm_num
    unfold isDuplicate
    simp only [List.any_cons, List.any_nil]
    rw [show batteryGuide.title = "Something Else Entirely" from rfl, hov,
        if_neg (by norm_num)]
    decide

namespace GuideMatchingService

/-- The existing guide of the title-similarity deduplication example. -/
def wifiProblemsGuide : Guide :=
  { id := "guide-3"
    title := "Fixing Wifi Connection Problems"
    problemDescription := "Wifi problems"
    keywords := ["wifi", "connection"]
    category := "wifi" }

end GuideMatchingService

open GuideMatchingService in
/-- C4 counterexample: the candidate title `"Fix Wifi Connection Issues"`
against the guide `"Fixing Wifi Connection Problems"` (two common
keywords) is **not** flagged as a duplicate: the title word-overlap is
`1/2`, not above `0.7`. -/
theorem C4_counterexample :
    isDuplicate [wifiProblemsGuide] "Fix Wifi Connection Issues"
      ["wifi", "connection"] = false := by
  have hov : calculateWordOverlap "Fix Wifi Connection Issues"
      "Fixing Wifi Connection Problems" = 1 / 2 := by
    rw [calculateWordOverlap_eval (m := 2) (n := 4) (by decide) (by decide) (by decide)]
    norm_num
  unfold isDuplicate
  simp only [List.any_cons, List.any_nil]
  rw [show wifiProblemsGuide.title = "Fixing Wifi Connection Problems" from rfl, hov,
      if_neg (by norm_num)]
  decide

open GuideMatchingService in
/-- C4 (amended): the computed title similarity of the scenario pair is
exactly `1/2` (the tokens `fix` and `issues` fail to match), which does not
exceed `0.7`, so with fewer than three common keywords `isDuplicate`
returns `false` — under `sw.js`'s `isDuplicate` the similarity is likewise
`1/2` (`fix` is dropped by its length-`> 3` filter). -/
theorem C4_amended_similarity_half_not_duplicate :
    calculateWordOverlap "Fix Wifi Connection Issues" "Fixing Wifi Connection Problems"
      = 1 / 2
    ∧ SW.titleSimilarity "Fix Wifi Connection Issues" "Fixing Wifi Connection Problems"
      = 1 / 2
    ∧ ¬ ((1 : ℚ) / 2 > 0.7)
    ∧ isDuplicate [wifiProblemsGuide] "Fix Wifi Connection Issues"
        ["wifi", "connection"] = false := by
  have hov : calculateWordOverlap "Fix Wifi Connection Issues"
      "Fixing Wifi Connection Problems" = 1 / 2 := by
    rw [calculateWordOverlap_eval (m := 2) (n := 4) (by decide) (by decide) (by decide)]
    norm_num
  refine ⟨hov, ?_, by norm_num, ?_⟩
  · unfold SW.titleSimilarity
    rw [show SW.matchingWordCount "Fix Wifi Connection Issues"
          "Fixing Wifi Connection Problems" = 2 from by decide,
        show (SW.titleWords "Fix Wifi Connection Issues").length = 4 from by decide]
    norm_num
  · unfold isDuplicate
    simp only [List.any_cons, List.any_nil]
    rw [show wifiProblemsGuide.title = "Fixing Wifi Connection Problems" from rfl, hov,
        if_neg (by norm_num)]
    decide

/-- The empty needle is a substring of every character list
(`''.includes` semantics). -/
theorem containsSub_empty_needle (l : List Char) : containsSub l [] = true := by
  cases l <;> rfl

open GuideMatchingService in
/-- C10: a keyword whose normalized form is the empty string passes the
substring test of `keywordScore` against every query; a non-empty keyword
list whose members all normalize to the empty string therefore scores `1`. -/
theorem C10_empty_normalized_keywords_score_one :
    (∀ query k : String, normalize k = "" →
      strIncludes (normalize query) (normalize k) = true)
    ∧ (∀ (query : String) (keywords : List String),
        keywords ≠ [] → (∀ k ∈ keywords, normalize k = "") →
        keywordScore query keywords = 1) := by
  have hsub : ∀ query k : String, normalize k = "" →
      strIncludes (normalize query) (normalize k) = true := by
    intro query k hk
    rw [hk]
    exact containsSub_empty_needle _
  refine ⟨hsub, ?_⟩
  intro query keywords hne hall
  have hm : keywordMatchCount query keywords = keywords.length := by
    unfold keywordMatchCount
    rw [List.filter_eq_self.mpr (fun k hk => hsub query k (hall k hk))]
  have hp : 0 < keywords.length := List.length_pos.mpr hne
  unfold keywordScore
  rw [hm, if_pos hp]
  exact div_self (Nat.cast_ne_zero.mpr (Nat.pos_iff_ne_zero.mp hp))

open GuideMatchingService in
/-- C10 witness: the keywords `"?!"` and `"..."` both normalize to the
empty string, and the two-keyword list scores `1` against `"wifi"`. -/
theorem C10_witness :
    (["?!", "..."] ≠ ([] : List String))
    ∧ normalize "?!" = ""
    ∧ normalize "..." = ""
    ∧ keywordScore "wifi" ["?!", "..."] = 1 :=
  ⟨by decide, by decide, by decide,
    C10_empty_normalized_keywords_score_one.2 "wifi" ["?!", "..."]
      (by decide) (by decide)⟩

namespace Agent

/-- A search candidate that passes the safety filter on both its title and
its body — the condition under which the cycles proceed to generation. -/
abbrev SafeItem (it : Item) : Prop :=
  isSafeContent it.title = true ∧ isSafeContent it.body = true

end Agent

namespace SW

open Agent

/-- One `cycleStep` only ever adds safe candidates to the generator
invocation trace. -/
theorem cycleStep_trace_safe (gen : Item → Option DraftGuide)
    (existing : List DraftGuide) (acc : List DraftGuide × List Item) (item : Item)
    (h : ∀ it ∈ acc.2, SafeItem it) :
    ∀ it ∈ (cycleStep gen existing acc item).2, SafeItem it := by
  unfold cycleStep
  by_cases hsafe : (isSafeContent item.title && isSafeContent item.body) = true
  · have hst : SafeItem item := by
      simpa [Bool.and_eq_true] using hsafe
    rw [if_pos hsafe]
    have happ : ∀ it ∈ acc.2 ++ [item], SafeItem it := by
      intro it hit
      rcases List.mem_append.mp hit with h1 | h2
      · exact h it h1
      · rw [List.mem_singleton.mp h2]; exact hst
    cases hgen : gen item with
    | none => exact happ
    | some g =>
      dsimp only
      split
      · exact happ
      · exact happ
  · rw [if_neg hsafe]; exact h

/-- Folding `cycleStep` over a source list preserves trace safety. -/
theorem foldl_cycleStep_trace_safe (gen : Item → Option DraftGuide)
    (existing : List DraftGuide) :
    ∀ (items : List Item) (acc : List DraftGuide × List Item),
      (∀ it ∈ acc.2, SafeItem it) →
      ∀ it ∈ (items.foldl (cycleStep gen existing) acc).2, SafeItem it := by
  intro items
  induction items with
  | nil => intro acc h; simpa using h
  | cons x xs ih =>
    intro acc h
    exact ih _ (cycleStep_trace_safe gen existing acc x h)

/-- Every candidate on which `sw.js`'s cycle invoked the generator passed
the safety filter on title and body. -/
theorem cycle_trace_safe (gen : Item → Option DraftGuide)
    (existing : List DraftGuide) (queries : List (List Item)) :
    ∀ it ∈ (cycle gen existing queries).2, SafeItem it := by
  unfold cycle
  suffices h : ∀ (qs : List (List Item)) (acc : List DraftGuide × List Item),
      (∀ it ∈ acc.2, SafeItem it) →
      ∀ it ∈ (qs.foldl (fun acc sourceData =>
        sourceData.foldl (cycleStep gen existing) acc) acc).2, SafeItem it by
    exact h queries ([], []) (by simp)
  intro qs
  induction qs with
  | nil => intro acc h; simpa using h
  | cons sd rest ih =>
    intro acc h
    exact ih _ (foldl_cycleStep_trace_safe gen existing sd acc h)

end SW

namespace DA

open Agent

/-- One `cycleStep` of `discovery-agent.ts` only ever adds safe candidates
to the generator invocation trace. -/
theorem daCycleStep_trace_safe (gen : Item → Option DraftGuide)
    (acc : List DraftGuide × List Item) (item : Item)
    (h : ∀ it ∈ acc.2, SafeItem it) :
    ∀ it ∈ (cycleStep gen acc item).2, SafeItem it := by
  unfold cycleStep
  by_cases hsafe : (isSafeContent item.title && isSafeContent item.body) = true
  · have hst : SafeItem item := by
      simpa [Bool.and_eq_true] using hsafe
    rw [if_pos hsafe]
    have happ : ∀ it ∈ acc.2 ++ [item], SafeItem it := by
      intro it hit
      rcases List.mem_append.mp hit with h1 | h2
      · exact h it h1
      · rw [List.mem_singleton.mp h2]; exact hst
    cases hgen : gen item with
    | none => exact happ
    | some g => exact happ
  · rw [if_neg hsafe]; exact h

/-- Every candidate on which `discovery-agent.ts`'s cycle invoked the
generator passed the safety filter on title and body. -/
theorem daCycle_trace_safe (gen : Item → Option DraftGuide)
    (sourceData : List Item) :
    ∀ it ∈ (cycle gen sourceData).2, SafeItem it := by
  unfold cycle
  suffices h : ∀ (items : List Item) (acc : List DraftGuide × List Item),
      (∀ it ∈ acc.2, SafeItem it) →
      ∀ it ∈ (items.foldl (cycleStep gen) acc).2, SafeItem it by
    exact h sourceData ([], []) (by simp)
  intro items
  induction items with
  | nil => intro acc h; simpa using h
  | cons x xs ih =>
    intro acc h
    exact ih _ (daCycleStep_trace_safe gen acc x h)

end DA

/-- C6: in both cycle implementations, a candidate whose title or body
fails the safety filter never reaches the Guide Generator (it never enters
the generator invocation trace). -/
theorem C6_unsafe_candidate_never_generated
    (gen : Agent.Item → Option Agent.DraftGuide)
    (existing : List Agent.DraftGuide) (queries : List (List Agent.Item))
    (sourceData : List Agent.Item) (item : Agent.Item)
    (h : ¬ Agent.SafeItem item) :
    item ∉ (SW.cycle gen existing queries).2
    ∧ item ∉ (DA.cycle gen sourceData).2 := by
  constructor
  · intro hmem
    exact h (SW.cycle_trace_safe gen existing queries item hmem)
  · intro hmem
    exact h (DA.daCycle_trace_safe gen sourceData item hmem)

namespace Agent

/-- A candidate whose title contains the denylisted term `"hack"`. -/
def badItem : Item :=
  { title := "how to hack a wifi router"
    body := "forum thread body"
    url := "https://example.com/thread" }

end Agent

/-- C6 witness: the concrete unsafe candidate `badItem` is never in the
generator trace of either cycle. -/
theorem C6_witness :
    ¬ Agent.SafeItem Agent.badItem
    ∧ Agent.badItem ∉ (SW.cycle (fun _ => none) [] [[Agent.badItem]]).2
    ∧ Agent.badItem ∉ (DA.cycle (fun _ => none) [Agent.badItem]).2 := by
  have huns : ¬ Agent.SafeItem Agent.badItem := by decide
  obtain ⟨h1, h2⟩ := C6_unsafe_candidate_never_generated (fun _ => none) []
    [[Agent.badItem]] [Agent.badItem] Agent.badItem huns
  exact ⟨huns, h1, h2⟩

namespace SW

open Agent

/-- The accepted drafts of a cycle were each cleared by the deduplicator:
`DedupChecked existing accepted` says every draft in `accepted` was found
non-duplicate against `existing` extended with all drafts accepted before
it. -/
def DedupChecked (existing : List DraftGuide) : List DraftGuide → Prop
  | [] => True
  | g :: rest => isDuplicate g existing = false ∧ DedupChecked (existing ++ [g]) rest

/-- Appending one accepted draft to a `DedupChecked` list. -/
theorem dedupChecked_append (e : List DraftGuide) (l : List DraftGuide)
    (g : DraftGuide) :
    DedupChecked e (l ++ [g]) ↔ DedupChecked e l ∧ isDuplicate g (e ++ l) = false := by
  induction l generalizing e with
  | nil => simp [DedupChecked]
  | cons x xs ih =>
    simp only [List.cons_append, DedupChecked, List.append_eq]
    rw [ih (e ++ [x]), List.append_assoc, List.singleton_append, and_assoc]

/-- One `cycleStep` preserves the deduplication invariant on the accepted
drafts. -/
theorem cycleStep_dedupChecked (gen : Item → Option DraftGuide)
    (existing : List DraftGuide) (acc : List DraftGuide × List Item) (item : Item)
    (h : DedupChecked existing acc.1) :
    DedupChecked existing (cycleStep gen existing acc item).1 := by
  unfold cycleStep
  by_cases hsafe : (isSafeContent item.title && isSafeContent item.body) = true
  · rw [if_pos hsafe]
    cases hgen : gen item with
    | none => exact h
    | some g =>
      dsimp only
      by_cases hdup : isDuplicate g (existing ++ acc.1) = true
      · rw [if_pos hdup]; exact h
      · rw [if_neg hdup]
        exact (dedupChecked_append existing acc.1 g).mpr
          ⟨h, by simpa using hdup⟩
  · rw [if_neg hsafe]; exact h

/-- Folding `cycleStep` preserves the deduplication invariant. -/
theorem foldl_cycleStep_dedupChecked (gen : Item → Option DraftGuide)
    (existing : List DraftGuide) :
    ∀ (items : List Item) (acc : List DraftGuide × List Item),
      DedupChecked existing acc.1 →
      DedupChecked existing ((items.foldl (cycleStep gen existing) acc)).1 := by
  intro items
  induction items with
  | nil => intro acc h; simpa using h
  | cons x xs ih =>
    intro acc h
    exact ih _ (cycleStep_dedupChecked gen existing acc x h)

/-- Every draft accepted by `sw.js`'s cycle was cleared by `isDuplicate`
against the load-time guides plus the drafts accepted before it. -/
theorem cycle_dedupChecked (gen : Item → Option DraftGuide)
    (existing : List DraftGuide) (queries : List (List Item)) :
    DedupChecked existing (cycle gen existing queries).1 := by
  unfold cycle
  suffices h : ∀ (qs : List (List Item)) (acc : List DraftGuide × List Item),
      DedupChecked existing acc.1 →
      DedupChecked existing ((qs.foldl (fun acc sourceData =>
        sourceData.foldl (cycleStep gen existing) acc) acc)).1 by
    exact h queries ([], []) trivial
  intro qs
  induction qs with
  | nil => intro acc h; simpa using h
  | cons sd rest ih =>
    intro acc h
    exact ih _ (foldl_cycleStep_dedupChecked gen existing sd acc h)

end SW

namespace Agent

/-- A fixed `meta` block for the concrete drafts below. -/
def sampleMeta : GuideMeta :=
  { created := "2026-02-03"
    updated := "2026-02-03"
    sourceUrl := "https://example.com/thread"
    confidenceScore := 0.85
    priorityScore := 0.8
    difficulty := "Medium" }

/-- A safe search candidate. -/
def okItem : Item :=
  { title := "wifi wont connect"
    body := "my wifi drops every evening"
    url := "https://example.com/wifi" }

/-- A generated draft near-identical to `corpusDraft`. -/
def dupDraft : DraftGuide :=
  { id := "draft-1"
    title := "Wireless Internet Problems"
    problemDescription := "Wifi keeps dropping"
    keywords := ["wifi", "internet", "router"]
    category := "wifi"
    steps := []
    alternates := []
    meta := sampleMeta }

/-- A draft already present in the persisted corpus. -/
def corpusDraft : DraftGuide :=
  { id := "guide-9"
    title := "Wireless Internet Problems Guide"
    problemDescription := "Wifi keeps dropping"
    keywords := ["wifi", "internet", "router"]
    category := "wifi"
    steps := []
    alternates := []
    meta := sampleMeta }

end Agent

open Agent in
/-- C5 counterexample: the `discovery-agent.ts` cycle accepts `dupDraft`
although the deduplicator reports it as a duplicate of the persisted
`corpusDraft` — that cycle variant performs no duplicate check at all. -/
theorem C5_counterexample :
    (DA.cycle (fun _ => some dupDraft) [okItem]).1 = [dupDraft]
    ∧ SW.isDuplicate dupDraft [corpusDraft] = true := by
  constructor
  · rfl
  · have hsim : SW.titleSimilarity "Wireless Internet Problems"
        "Wireless Internet Problems Guide" = 1 := by
      unfold SW.titleSimilarity
      rw [show SW.matchingWordCount "Wireless Internet Problems"
            "Wireless Internet Problems Guide" = 3 from by decide,
          show (SW.titleWords "Wireless Internet Problems").length = 3 from by decide]
      norm_num
    unfold SW.isDuplicate
    simp only [List.any_cons, List.any_nil]
    rw [show dupDraft.title = "Wireless Internet Problems" from rfl,
        show corpusDraft.title = "Wireless Internet Problems Guide" from rfl,
        hsim, if_pos (by norm_num)]
    rfl

open Agent in
/-- C5 (amended): in the `sw.js` cycle every accepted draft was cleared by
the deduplicator against the prior pending store plus the persisted corpus
plus the drafts accepted earlier in the same cycle; the `discovery-agent.ts`
variant performs no such check. -/
theorem C5_amended_sw_cycle_checks_dedup
    (gen : Item → Option DraftGuide) (pendingStore corpus : List DraftGuide)
    (queries : List (List Item)) :
    SW.DedupChecked (pendingStore ++ corpus)
      (SW.cycle gen (pendingStore ++ corpus) queries).1 :=
  SW.cycle_dedupChecked gen (pendingStore ++ corpus) queries

namespace Agent

/-- A generated draft whose title contains the denylisted term `"hack"`. -/
def badDraft : DraftGuide :=
  { id := "draft-2"
    title := "Hack your router firmware"
    problemDescription := "Wifi keeps dropping"
    keywords := ["wifi", "router"]
    category := "wifi"
    steps := []
    alternates := []
    meta := sampleMeta }

end Agent

open Agent in
/-- C7 counterexample: from the safe candidate `okItem`, a generator output
whose title contains the denylisted term `"hack"` is appended unmodified by
the `sw.js` cycle — the safety filter is not re-applied after generation. -/
theorem C7_counterexample :
    SafeItem okItem
    ∧ (SW.cycle (fun _ => some badDraft) [] [[okItem]]).1 = [badDraft]
    ∧ isSafeContent badDraft.title = false := by
  exact ⟨by decide, rfl, by decide⟩

open Agent in
/-- C7 (amended): the safety filter is applied only to the candidate title
and body before generation; generator output is not re-checked, so a draft
whose generated title contains a denylisted term can be appended to the
pending store even though its source candidate passed the safety check. -/
theorem C7_amended_output_not_rechecked :
    ∃ (gen : Item → Option DraftGuide) (item : Item) (g : DraftGuide),
      SafeItem item
      ∧ g ∈ (SW.cycle gen [] [[item]]).1
      ∧ isSafeContent g.title = false := by
  refine ⟨fun _ => some badDraft, okItem, badDraft, by decide, ?_, by decide⟩
  rw [show (SW.cycle (fun _ => some badDraft) [] [[okItem]]).1 = [badDraft] from rfl]
  exact List.mem_singleton.mpr rfl

/-- C8: `generateGuideFromContent` is a constant `null` without the API
key; any fetch error, non-success HTTP status or parse failure of the
response also yields `null`; a successful generation is stamped with
`confidenceScore = 0.85`, `priorityScore = 0.8`, and the generated
difficulty, defaulting to `"Medium"` when it is absent or empty. -/
theorem C8_generateGuide_spec :
    (∀ (freshId now url : String) (resp : Agent.GenResponse),
      Agent.generateGuideFromContent none freshId now url resp = none)
    ∧ (∀ key freshId now url : String,
        Agent.generateGuideFromContent (some key) freshId now url .fetchError = none
        ∧ Agent.generateGuideFromContent (some key) freshId now url .httpNotOk = none
        ∧ Agent.generateGuideFromContent (some key) freshId now url .parseFailure = none)
    ∧ (∀ (key freshId now url : String) (c : Agent.GenContent) (g : Agent.DraftGuide),
        Agent.generateGuideFromContent (some key) freshId now url (.ok c) = some g →
          g.meta.confidenceScore = 0.85
          ∧ g.meta.priorityScore = 0.8
          ∧ ((c.difficulty = none ∨ c.difficulty = some "") →
              g.meta.difficulty = "Medium")
          ∧ (∀ d : String, c.difficulty = some d → d ≠ "" →
              g.meta.difficulty = d)) := by
  refine ⟨fun _ _ _ _ => rfl, fun _ _ _ _ => ⟨rfl, rfl, rfl⟩, ?_⟩
  intro key freshId now url c g h
  unfold Agent.generateGuideFromContent at h
  cases h
  refine ⟨rfl, rfl, ?_, ?_⟩
  · rintro (hd | hd) <;> simp [hd]
  · intro d hd hne
    rw [hd]
    simp [hne]

namespace Agent

/-- A concrete parsed generation output with no difficulty field. -/
def sampleContent : GenContent :=
  { title := "Fix Wi-Fi No Internet"
    problemDescription := "Router reset steps"
    category := "wifi"
    difficulty := none
    keywords := ["wifi", "internet", "connection"]
    steps := [{ title := "Step 1", content := "Restart the router" }]
    alternates := [] }

/-- The draft `generateGuideFromContent` stamps out of `sampleContent`. -/
def sampleDraft : DraftGuide :=
  { id := "draft-9"
    title := "Fix Wi-Fi No Internet"
    problemDescription := "Router reset steps"
    keywords := ["wifi", "internet", "connection"]
    category := "wifi"
    steps := [{ title := "Step 1", content := "Restart the router" }]
    alternates := []
    meta := { created := "2026-02-03"
              updated := "2026-02-03"
              sourceUrl := "https://example.com/thread"
              confidenceScore := 0.85
              priorityScore := 0.8
              difficulty := "Medium" } }

end Agent

open Agent in
/-- C8 witness: the missing key suppresses generation, and the concrete
successful generation of `sampleContent` carries the stamped meta values. -/
theorem C8_witness :
    Agent.generateGuideFromContent none "draft-9" "2026-02-03"
      "https://example.com/thread" .parseFailure = none
    ∧ sampleDraft.meta.confidenceScore = 0.85
    ∧ sampleDraft.meta.priorityScore = 0.8
    ∧ sampleDraft.meta.difficulty = "Medium" := by
  have h := C8_generateGuide_spec.2.2 "key" "draft-9" "2026-02-03"
    "https://example.com/thread" sampleContent sampleDraft rfl
  exact ⟨C8_generateGuide_spec.1 "draft-9" "2026-02-03"
    "https://example.com/thread" _, h.1, h.2.1, h.2.2.1 (Or.inl rfl)⟩

namespace Agent

/-- A page body of exactly 200 characters. -/
def text200 : String := String.mk (List.replicate 200 'a')

/-- A page body of exactly 300 characters. -/
def text300 : String := String.mk (List.replicate 300 'b')

end Agent

set_option maxRecDepth 8000 in
open Agent in
/-- C9 counterexample: a page whose extracted body has exactly 200
characters is rejected (`scrapePageContent` returns `null`) although the
body is not shorter than 200 characters — the code keeps a page only when
`body.length > 200`. -/
theorem C9_counterexample :
    scrapePageContent (NavResult.page "Sample title" text200) = none
    ∧ ¬ ((String.mk (text200.toList.take 3000)).length < 200) := by
  exact ⟨by decide, by decide⟩

open Agent in
/-- C9 (amended): `scrapePageContent` never throws, returns `null` exactly
when navigation fails or the truncated body has **at most** 200
characters, and otherwise returns the title with a body excerpt of at most
3000 characters. -/
theorem C9_amended_scrape_null_iff :
    scrapePageContent NavResult.navError = none
    ∧ (∀ title fullText : String,
        scrapePageContent (NavResult.page title fullText) = none
          ↔ (String.mk (fullText.toList.take 3000)).length ≤ 200)
    ∧ (∀ (nav : NavResult) (title body : String),
        scrapePageContent nav = some (title, body) → body.length ≤ 3000) := by
  refine ⟨rfl, ?_, ?_⟩
  · intro title fullText
    unfold scrapePageContent
    dsimp only
    split_ifs with h
    · simp only [reduceCtorEq, false_iff]
      omega
    · simp only [true_iff]
      omega
  · intro nav title body h
    cases nav with
    | navError => simp [scrapePageContent] at h
    | page t ft =>
      unfold scrapePageContent at h
      dsimp only at h
      split_ifs at h with hlen
      · obtain ⟨-, hb⟩ := Prod.mk.injEq .. ▸ Option.some.inj h
        rw [← hb]
        have : (ft.toList.take 3000).length ≤ 3000 := by
          rw [List.length_take]
          omega
        exact this

set_option maxRecDepth 8000 in
open Agent in
/-- C9 witness: a 300-character page is accepted and its excerpt is within
the 3000-character bound. -/
theorem C9_witness :
    scrapePageContent (NavResult.page "T" text300) = some ("T", text300)
    ∧ text300.length ≤ 3000 :=
  ⟨by decide,
    C9_amended_scrape_null_iff.2.2 (NavResult.page "T" text300) "T" text300
      (by decide)⟩
